import Mathlib

/-!
Shallow embedding of the MultiAgent_Analysis_System repository:
the data-parsing and visualization agents (src/agents/) and the
LangGraph-based analysis pipeline (src/workflow/langgraph_pipeline.py).

Pandas DataFrames are modelled as lists of named, typed columns of cells;
file I/O (reading CSVs, saving images and PDFs) is modelled through explicit
function parameters standing for the external collaborators the spec names.
-/

/-- Column dtypes the source distinguishes via pandas select_dtypes calls. -/
inductive Dtype where
  | int64
  | float64
  | object
deriving DecidableEq, Repr

/-- A cell of a pandas column: missing (NaN), a string, or a number. -/
inductive Cell where
  | missing
  | str (s : String)
  | num (q : Rat)
deriving DecidableEq, Repr

/-- A named pandas column with its dtype and cell contents. -/
structure Col where
  name : String
  dtype : Dtype
  cells : List Cell
deriving DecidableEq, Repr

/-- A pandas DataFrame: its row count (len(df)) and its columns. -/
structure DataFrame where
  nrows : Nat
  cols : List Col
deriving DecidableEq, Repr

/-- Well-formedness: every column holds exactly nrows cells. -/
def DataFrame.Wf (df : DataFrame) : Prop :=
  ∀ c ∈ df.cols, c.cells.length = df.nrows

/-- Rendering a cell by astype(str): pandas renders a missing value as "nan";
numbers render deterministically (the external str() of the value). -/
def cellToStr : Cell → String
  | .missing => "nan"
  | .str s => s
  | .num q => toString q

/-- Effect on one object-column cell of data_parser_agent.py line 189:
astype(str), then .str.strip(), then replacing the exact string "nan"
by a missing value. -/
def cleanObjCell (c : Cell) : Cell :=
  let t := (cellToStr c).trim
  if t = "nan" then Cell.missing else Cell.str t

/-- Cleaning of a single column: only object-dtype columns are touched
(data_parser_agent.py lines 187-189). -/
def cleanCol (c : Col) : Col :=
  if c.dtype = Dtype.object then
    Col.mk c.name c.dtype (c.cells.map cleanObjCell)
  else c

/-- Basic cleaning pass of data_parser_agent.py lines 186-189: trim whitespace
in object columns and turn stripped "nan" strings back into missing values. -/
def cleanFrame (df : DataFrame) : DataFrame :=
  DataFrame.mk df.nrows (df.cols.map cleanCol)

/-- Whether a cell is missing (pandas isnull). -/
def Cell.isMissing : Cell → Bool
  | .missing => true
  | _ => false

/-- Missing-value count of one column (df.isnull().sum() entry, line 194). -/
def colMissingCount (c : Col) : Nat :=
  (c.cells.filter Cell.isMissing).length

/-- Per-column missing-value counts (line 194). -/
def missingCounts (df : DataFrame) : List (String × Nat) :=
  df.cols.map (fun c => (c.name, colMissingCount c))

/-- Per-column missing-value percentages, guarded against division by zero
(data_parser_agent.py line 195). -/
def missingPercentage (numRows : Nat) (mcounts : List (String × Nat)) :
    List (String × Rat) :=
  mcounts.map (fun kv =>
    (kv.1, if numRows > 0 then (kv.2 : Rat) / (numRows : Rat) * 100 else 0))

/-- String form of a pandas dtype (line 197). -/
def dtypeStr : Dtype → String
  | .int64 => "int64"
  | .float64 => "float64"
  | .object => "object"

/-- Per-column dtype strings (line 197). -/
def dtypesOf (df : DataFrame) : List (String × String) :=
  df.cols.map (fun c => (c.name, dtypeStr c.dtype))

/-- The describe() call of _safe_describe (lines 143-159), an external pandas
computation, modelled by its deterministic per-column non-missing count (the
"count" row of describe); it is a pure function of the frame. -/
def safeDescribe (df : DataFrame) : List (String × Nat) :=
  df.cols.map (fun c => (c.name, (c.cells.filter (fun x => !x.isMissing)).length))

/-- Row i of the frame as a record mapping column name to cell (to_dict with
orient records). -/
def rowRecord (df : DataFrame) (i : Nat) : List (String × Cell) :=
  df.cols.map (fun c => (c.name, c.cells.getD i Cell.missing))

/-- df.head(sample_n).to_dict(orient="records") (line 204). -/
def sampleRows (df : DataFrame) (sampleN : Nat) : List (List (String × Cell)) :=
  (List.range (min sampleN df.nrows)).map (rowRecord df)

/-- The structured summary record data_parser_agent returns (lines 208-217). -/
structure Summary where
  num_rows : Nat
  num_columns : Nat
  columns : List String
  dtypes : List (String × String)
  missing_counts : List (String × Nat)
  missing_percentage : List (String × Rat)
  summary_stats : List (String × Nat)
  sample_rows : List (List (String × Cell))
deriving DecidableEq, Repr

/-- Errors a stage collaborator can raise. -/
inductive StageErr where
  | fileNotFound (path : String)
  | valueError (msg : String)
  | keyError (key : String)
  | typeError (msg : String)
  | external (msg : String)
deriving DecidableEq, Repr

/-- The dynamic argument of data_parser_agent: a path, an in-memory frame, or
any other python object (the isinstance checks of lines 172-184). -/
inductive DfOrPath where
  | path (p : String)
  | frame (df : DataFrame)
  | other
deriving Repr

/-- Summary computation on an in-memory frame (lines 186-217, with
save_clean_path left at None): clean, then measure the cleaned frame. -/
def parseFrame (df0 : DataFrame) (sampleN : Nat) : Summary :=
  let df := cleanFrame df0
  let mc := missingCounts df
  Summary.mk df.nrows df.cols.length (df.cols.map Col.name) (dtypesOf df) mc
    (missingPercentage df.nrows mc) (safeDescribe df) (sampleRows df sampleN)

/-- data_parser_agent (src/agents/data_parser_agent.py lines 162-226).
fs stands for the file system together with the external pandas readers:
it yields the parsed frame of an existing file and none for a missing path. -/
def data_parser_agent (fs : String → Option DataFrame) (x : DfOrPath)
    (sampleN : Nat) : Except StageErr Summary :=
  match x with
  | .path p =>
    match fs p with
    | none => .error (.fileNotFound p)
    | some df => .ok (parseFrame df sampleN)
  | .frame df => .ok (parseFrame df sampleN)
  | .other => .error (.valueError "df_or_path must be path or pandas.DataFrame")

/-- Caller-visible frame after a data_parser_agent call on an in-memory frame:
line 182 copies the argument, so the cleaning writes of lines 186-189 land on
the copy; an aliasing implementation would instead expose the cleaned frame. -/
def parserCallerFrame (df : DataFrame) (aliased : Bool) : DataFrame :=
  if aliased then cleanFrame df else df

/-- The frame the caller holds after data_parser_agent returns: the source
takes a copy (line 182), so aliased is false. -/
def data_parser_agent_callerFrame (df : DataFrame) : DataFrame :=
  parserCallerFrame df false

/-- A figure the visualization agent renders: correlation heatmap, one
distribution plot per numeric column, or the pairplot. -/
inductive RenderReq where
  | heatmap (df : DataFrame) (ncols : List String)
  | dist (df : DataFrame) (col : String)
  | pairplot (df : DataFrame) (ncols : List String)

/-- The result dict of viz_generator_agent: a status message and a mapping
from chart name to base64 image string. -/
structure VizResult where
  message : String
  visualizations : List (String × String)
deriving DecidableEq, Repr

/-- Numeric columns selected by viz_generator.py line 290. -/
def numericCols (df : DataFrame) : List String :=
  (df.cols.filter (fun c => c.dtype = Dtype.int64 ∨ c.dtype = Dtype.float64)).map Col.name

/-- viz_generator_agent (src/agents/viz_generator.py lines 268-338).
render stands for the external matplotlib/seaborn rendering of a figure to a
base64 PNG string; saving PNG files to output_dir is file I/O with no effect
on the returned dict and is not modelled. -/
def viz_generator_agent (render : RenderReq → String) (df : DataFrame)
    (_outputDir : String) (_saveImages : Bool) : VizResult :=
  let ncols := numericCols df
  if ncols.length = 0 then
    VizResult.mk "No numeric columns found." []
  else
    VizResult.mk "Visualizations created successfully!"
      ([("correlation_heatmap", render (.heatmap df ncols))]
        ++ ncols.map (fun c => (c ++ "_distribution", render (.dist df c)))
        ++ (if ncols.length ≤ 5 then [("pairplot", render (.pairplot df ncols))] else []))

/-- A Context value: the heterogeneous data the pipeline state dict holds. -/
inductive Value where
  | vNone
  | vStr (s : String)
  | vBool (b : Bool)
  | vDf (df : DataFrame)
  | vSummary (s : Summary)
  | vViz (v : VizResult)
deriving DecidableEq, Repr

/-- The Context: the mutable key-value state dict threaded through stages,
as an insertion-ordered association list (python dict semantics). -/
abbrev Ctx := List (String × Value)

/-- Dict lookup: state bracket access, minus the KeyError. -/
def ctxGet : Ctx → String → Option Value
  | [], _ => none
  | kv :: rest, k => if kv.1 = k then some kv.2 else ctxGet rest k

/-- state.get(k, d): lookup with default. -/
def ctxGetD (ctx : Ctx) (k : String) (d : Value) : Value :=
  (ctxGet ctx k).getD d

/-- Dict assignment: an existing key keeps its position and gets the new
value; a fresh key is appended (python dict insertion order). -/
def ctxSet : Ctx → String → Value → Ctx
  | [], k, v => [(k, v)]
  | kv :: rest, k, v =>
    if kv.1 = k then (k, v) :: rest else kv :: ctxSet rest k v

/-- The field names of a Context, in insertion order. -/
def ctxKeys (ctx : Ctx) : List String := ctx.map Prod.fst

/-- A stage work function: partial update of the Context or a failure. -/
abbrev StageFn := Ctx → Except StageErr Ctx

/-- Modelled from the spec: the Graph Builder of section 4.1 (langgraph's
StateGraph, an external library not in the repository): registered stages,
directed edges, and the designated entry stage. -/
structure GraphBuilder where
  stages : List (String × StageFn)
  edges : List (String × String)
  entry : Option String

/-- Modelled from the spec: the reserved terminal sentinel (langgraph END). -/
def ENDSentinel : String := "__end__"

/-- Compilation errors of spec section 4.2. -/
inductive CompileErr where
  | missingEntry
  | unreachableTerminal
  | cycle (stage : String)
  | danglingEdge (stage : String)
deriving DecidableEq, Repr

/-- Modelled from the spec: the compiler walk of section 4.2 — follow the
outgoing edge of each stage from the entry until the terminal sentinel,
rejecting unregistered stages (dangling edges), revisits (cycles) and chains
that never reach the sentinel. Fuel bounds the walk by the stage count. -/
def chainWalk (edges : List (String × String)) (registered : List String) :
    Nat → String → List String → Except CompileErr (List String)
  | 0, _, _ => .error .unreachableTerminal
  | fuel + 1, current, visited =>
    if current ∈ registered then
      match edges.find? (fun e => e.1 == current) with
      | none => .error .unreachableTerminal
      | some e =>
        if e.2 == ENDSentinel then .ok (visited ++ [current])
        else if e.2 ∈ visited ++ [current] then .error (.cycle e.2)
        else chainWalk edges registered fuel e.2 (visited ++ [current])
    else .error (.danglingEdge current)

/-- Modelled from the spec: compile() of section 4.2 — validate the builder
state and produce the immutable plan, the ordered list of stage names. -/
def GraphBuilder.compile (b : GraphBuilder) : Except CompileErr (List String) :=
  match b.entry with
  | none => .error .missingEntry
  | some e => chainWalk b.edges (b.stages.map Prod.fst) (b.stages.length + 1) e []

/-- Outcome of a run: the terminal states of the spec's per-run state machine.
failed carries the failing stage's name, the original cause, and the Context
as of the stages completed strictly before the failure (the
StageExecutionError wrapping of section 7). -/
inductive RunResult where
  | completed (ctx : Ctx)
  | failed (stage : String) (cause : StageErr) (ctx : Ctx)
deriving DecidableEq, Repr

/-- Merge a stage's update into the Context with overwrite-on-conflict
semantics (spec section 4.3 step 3). -/
def mergeInto (ctx : Ctx) (upd : Ctx) : Ctx :=
  upd.foldl (fun c kv => ctxSet c kv.1 kv.2) ctx

/-- Look up a registered stage function by name. -/
def stageFnOf (b : GraphBuilder) (n : String) : Option StageFn :=
  (b.stages.find? (fun kv => kv.1 == n)).map Prod.snd

/-- Modelled from the spec: the Executor of section 4.3 — walk the compiled
plan in order, invoke each stage, merge its update on success, halt
immediately on the first failure. -/
def execStages (b : GraphBuilder) : List String → Ctx → RunResult
  | [], ctx => .completed ctx
  | n :: rest, ctx =>
    match stageFnOf b n with
    | none => .failed n (.external "unregistered stage") ctx
    | some f =>
      match f ctx with
      | .error e => .failed n e ctx
      | .ok upd => execStages b rest (mergeInto ctx upd)

/-- Convert the dynamic state value bound to df into the argument
data_parser_agent dispatches on (its isinstance checks). -/
def valueToDfOrPath : Value → DfOrPath
  | .vDf d => .frame d
  | .vStr s => .path s
  | _ => .other

/-- Data parser node (langgraph_pipeline.py lines 35-41): reads state df,
runs data_parser_agent with its default sample count 5, writes summary. -/
def nodeDataParser (fs : String → Option DataFrame) (ctx : Ctx) :
    Except StageErr Ctx :=
  match ctxGet ctx "df" with
  | none => .error (.keyError "df")
  | some v =>
    match data_parser_agent fs (valueToDfOrPath v) 5 with
    | .error e => .error e
    | .ok s => .ok (ctxSet ctx "summary" (.vSummary s))

/-- Insight generator node (lines 44-55). insightFn stands for
insight_generator_agent, imported from src/agents/insight_generator_agent.py
which is absent from the repository snapshot; per the spec it consumes the
frame, the use_llm flag and model-selection parameters and produces a
free-form insight payload or fails. -/
def node_insight_generator
    (insightFn : Value → Value → Value → Value → Except StageErr Value)
    (ctx : Ctx) : Except StageErr Ctx :=
  match ctxGet ctx "df" with
  | none => .error (.keyError "df")
  | some df =>
    let useLlm := ctxGetD ctx "use_llm" (.vBool true)
    let groqKey := ctxGetD ctx "groq_api_key" .vNone
    let modelName := ctxGetD ctx "model_name" (.vStr "llama-3.1-8b-instant")
    match insightFn df useLlm groqKey modelName with
    | .error e => .error e
    | .ok ins => .ok (ctxSet ctx "insights" ins)

/-- Visualization node (lines 58-64): reads state df and output_dir
(default "output/visuals"), runs viz_generator_agent with save_images true,
writes visuals. A non-frame df fails inside select_dtypes. -/
def node_visualization (render : RenderReq → String) (ctx : Ctx) :
    Except StageErr Ctx :=
  match ctxGet ctx "df" with
  | none => .error (.keyError "df")
  | some v =>
    match v with
    | .vDf d =>
      match ctxGetD ctx "output_dir" (.vStr "output/visuals") with
      | .vStr dir =>
        .ok (ctxSet ctx "visuals" (.vViz (viz_generator_agent render d dir true)))
      | _ => .error (.typeError "output_dir is not a str")
    | _ => .error (.typeError "df is not a DataFrame")

/-- os.path.join of a directory and a file name (line 72): an empty directory
yields the file name alone, a directory with a trailing slash is used as is,
otherwise a slash separates the two parts. -/
def pathJoin (dir fname : String) : String :=
  if dir = "" then fname
  else if dir.data.getLast? = some '/' then dir ++ fname
  else dir ++ "/" ++ fname

/-- Report generator node (lines 67-82). reportFn stands for
report_generator_agent, imported from src/agents/report_generator_agent.py
which is absent from the repository snapshot; per the spec it consumes the
summary, the insight payload, the visualization bundle and an output file
path and produces the path of the generated document or fails. -/
def node_report_generator
    (reportFn : Value → Value → Value → String → Except StageErr String)
    (ctx : Ctx) : Except StageErr Ctx :=
  match ctxGet ctx "summary" with
  | none => .error (.keyError "summary")
  | some summary =>
  match ctxGet ctx "insights" with
  | none => .error (.keyError "insights")
  | some insights =>
  match ctxGet ctx "visuals" with
  | none => .error (.keyError "visuals")
  | some visuals =>
  match ctxGetD ctx "output_dir" (.vStr "output") with
  | .vStr dir =>
    match reportFn summary insights visuals (pathJoin dir "data_analysis_report.pdf") with
    | .error e => .error e
    | .ok p => .ok (ctxSet ctx "report_path" (.vStr p))
  | _ => .error (.typeError "output_dir is not a str")

/-- build_analysis_graph (langgraph_pipeline.py lines 26-96): register the
four nodes, chain them with edges ending at the terminal sentinel, and set
the entry point. -/
def build_analysis_graph (fs : String → Option DataFrame)
    (render : RenderReq → String)
    (insightFn : Value → Value → Value → Value → Except StageErr Value)
    (reportFn : Value → Value → Value → String → Except StageErr String) :
    GraphBuilder :=
  GraphBuilder.mk
    [("data_parser", nodeDataParser fs),
     ("insight_generator", node_insight_generator insightFn),
     ("visualization", node_visualization render),
     ("report_generator", node_report_generator reportFn)]
    [("data_parser", "insight_generator"),
     ("insight_generator", "visualization"),
     ("visualization", "report_generator"),
     ("report_generator", ENDSentinel)]
    (some "data_parser")

/-- An Optional[str] argument as a state value. -/
def optValue : Option String → Value
  | none => .vNone
  | some s => .vStr s

/-- The initial state dict of run_langgraph_pipeline (lines 116-122),
in its construction order. -/
def initState (df : Value) (outputDir : String) (useLlm : Bool)
    (groqKey : Option String) (modelName : String) : Ctx :=
  [("df", df),
   ("output_dir", .vStr outputDir),
   ("use_llm", .vBool useLlm),
   ("groq_api_key", optValue groqKey),
   ("model_name", .vStr modelName)]

/-- run_langgraph_pipeline (lines 99-129): build the graph, compile it, and
invoke the compiled plan on the initial state. -/
def run_langgraph_pipeline (fs : String → Option DataFrame)
    (render : RenderReq → String)
    (insightFn : Value → Value → Value → Value → Except StageErr Value)
    (reportFn : Value → Value → Value → String → Except StageErr String)
    (df : Value) (outputDir : String) (useLlm : Bool) (modelName : String)
    (groqKey : Option String) : Except CompileErr RunResult :=
  let b := build_analysis_graph fs render insightFn reportFn
  match b.compile with
  | .error e => .error e
  | .ok order => .ok (execStages b order (initState df outputDir useLlm groqKey modelName))

/-- Ten consecutive integer cells for one test column. -/
def exCol (nm : String) (base : Nat) : Col :=
  Col.mk nm Dtype.int64 ((List.range 10).map (fun i => Cell.num ((base + i : Nat) : Rat)))

/-- A 10-row, 3-column all-numeric test frame. -/
def exDf : DataFrame :=
  DataFrame.mk 10 [exCol "a" 0, exCol "b" 10, exCol "c" 20]

/-- A 2-row test frame with a single object column and no numeric columns. -/
def exDfNoNum : DataFrame :=
  DataFrame.mk 2 [Col.mk "s" Dtype.object [Cell.str " x ", Cell.str "y"]]

/-- A 0-row test frame with one numeric column. -/
def exDfEmpty : DataFrame :=
  DataFrame.mk 0 [Col.mk "a" Dtype.int64 []]

/-- Deterministic stub renderer. -/
def stubRender : RenderReq → String := fun _ => "png"

/-- Deterministic stub insight collaborator. -/
def stubInsight : Value → Value → Value → Value → Except StageErr Value :=
  fun _ _ _ _ => .ok (.vStr "three insights")

/-- Deterministic stub report collaborator: echoes the output path. -/
def stubReport : Value → Value → Value → String → Except StageErr String :=
  fun _ _ _ p => .ok p

/-- An empty file system: every path is missing. -/
def fsEmpty : String → Option DataFrame := fun _ => none

theorem ctxGet_set_self (ctx : Ctx) (k : String) (v : Value) :
    ctxGet (ctxSet ctx k v) k = some v := by
  induction ctx with
  | nil => simp [ctxSet, ctxGet]
  | cons kv rest ih =>
    by_cases h : kv.1 = k
    · simp [ctxSet, ctxGet, h]
    · simp [ctxSet, ctxGet, h, ih]

theorem ctxGet_set_ne (ctx : Ctx) (k k2 : String) (v : Value) (h : k2 ≠ k) :
    ctxGet (ctxSet ctx k v) k2 = ctxGet ctx k2 := by
  induction ctx with
  | nil => simp [ctxSet, ctxGet, Ne.symm h]
  | cons kv rest ih =>
    by_cases hh : kv.1 = k
    · simp [ctxSet, ctxGet, hh, Ne.symm h]
    · simp [ctxSet, ctxGet, hh, ih]

theorem cleanCol_name (c : Col) : (cleanCol c).name = c.name := by
  unfold cleanCol
  split <;> rfl

theorem cleanFrame_colNames (df : DataFrame) :
    (cleanFrame df).cols.map Col.name = df.cols.map Col.name := by
  simp only [cleanFrame, List.map_map]
  exact List.map_congr_left (fun c _ => cleanCol_name c)

theorem cleanFrame_nrows (df : DataFrame) : (cleanFrame df).nrows = df.nrows := rfl

theorem cleanFrame_numCols (df : DataFrame) :
    (cleanFrame df).cols.length = df.cols.length := by
  simp [cleanFrame]

theorem execStages_dichotomy (b : GraphBuilder) (order : List String) (ctx : Ctx) :
    (∃ c, execStages b order ctx = .completed c) ∨
    (∃ n e c, execStages b order ctx = .failed n e c ∧ n ∈ order) := by
  induction order generalizing ctx with
  | nil => exact .inl ⟨ctx, rfl⟩
  | cons n rest ih =>
    cases hf : stageFnOf b n with
    | none =>
      exact .inr ⟨n, .external "unregistered stage", ctx,
        by simp [execStages, hf], by simp⟩
    | some f =>
      cases hr : f ctx with
      | error e => exact .inr ⟨n, e, ctx, by simp [execStages, hf, hr], by simp⟩
      | ok upd =>
        rcases ih (mergeInto ctx upd) with ⟨c, hc⟩ | ⟨n2, e2, c2, h1, h2⟩
        · exact .inl ⟨c, by simp [execStages, hf, hr, hc]⟩
        · exact .inr ⟨n2, e2, c2, by simp [execStages, hf, hr, h1], by simp [h2]⟩

theorem execStages_cons_ok (b : GraphBuilder) (n : String) (rest : List String)
    (ctx : Ctx) (f : StageFn) (upd ctx2 : Ctx)
    (hf : stageFnOf b n = some f) (hr : f ctx = .ok upd)
    (hm : mergeInto ctx upd = ctx2) :
    execStages b (n :: rest) ctx = execStages b rest ctx2 := by
  simp [execStages, hf, hr, hm]

theorem execStages_cons_err (b : GraphBuilder) (n : String) (rest : List String)
    (ctx : Ctx) (f : StageFn) (e : StageErr)
    (hf : stageFnOf b n = some f) (hr : f ctx = .error e) :
    execStages b (n :: rest) ctx = .failed n e ctx := by
  simp [execStages, hf, hr]

theorem node_parser_fail (fs : String → Option DataFrame) (ctx : Ctx) (p : String)
    (hdf : ctxGet ctx "df" = some (.vStr p)) (hfs : fs p = none) :
    nodeDataParser fs ctx = .error (.fileNotFound p) := by
  simp only [nodeDataParser, hdf, valueToDfOrPath, data_parser_agent, hfs]

theorem node_insight_run
    (iF : Value → Value → Value → Value → Except StageErr Value)
    (ctx : Ctx) (dfv ins : Value)
    (hdf : ctxGet ctx "df" = some dfv)
    (hins : iF dfv (ctxGetD ctx "use_llm" (.vBool true))
      (ctxGetD ctx "groq_api_key" .vNone)
      (ctxGetD ctx "model_name" (.vStr "llama-3.1-8b-instant")) = .ok ins) :
    node_insight_generator iF ctx = .ok (ctxSet ctx "insights" ins) := by
  simp only [node_insight_generator, hdf, hins]

theorem node_report_run
    (rF : Value → Value → Value → String → Except StageErr String)
    (ctx : Ctx) (sv iv vv : Value) (dir rp : String)
    (hs : ctxGet ctx "summary" = some sv)
    (hi : ctxGet ctx "insights" = some iv)
    (hv : ctxGet ctx "visuals" = some vv)
    (hd : ctxGetD ctx "output_dir" (.vStr "output") = .vStr dir)
    (hr : rF sv iv vv (pathJoin dir "data_analysis_report.pdf") = .ok rp) :
    node_report_generator rF ctx = .ok (ctxSet ctx "report_path" (.vStr rp)) := by
  simp only [node_report_generator, hs, hi, hv, hd, hr]

set_option maxHeartbeats 1000000 in
theorem pipeline_run_eq (fs : String → Option DataFrame) (render : RenderReq → String)
    (iF : Value → Value → Value → Value → Except StageErr Value)
    (rF : Value → Value → Value → String → Except StageErr String)
    (d : DataFrame) (od : String) (ul : Bool) (mn : String) (gk : Option String)
    (iv : Value) (rp : String)
    (hins : iF (.vDf d) (.vBool ul) (optValue gk) (.vStr mn) = .ok iv)
    (hrep : rF (.vSummary (parseFrame d 5)) iv
      (.vViz (viz_generator_agent render d od true))
      (pathJoin od "data_analysis_report.pdf") = .ok rp) :
    run_langgraph_pipeline fs render iF rF (.vDf d) od ul mn gk =
      .ok (.completed
        [("df", .vDf d), ("output_dir", .vStr od), ("use_llm", .vBool ul),
         ("groq_api_key", optValue gk), ("model_name", .vStr mn),
         ("summary", .vSummary (parseFrame d 5)), ("insights", iv),
         ("visuals", .vViz (viz_generator_agent render d od true)),
         ("report_path", .vStr rp)]) := by
  have e2 : node_insight_generator iF
      [("df", Value.vDf d), ("output_dir", Value.vStr od), ("use_llm", Value.vBool ul),
       ("groq_api_key", optValue gk), ("model_name", Value.vStr mn),
       ("summary", Value.vSummary (parseFrame d 5))] =
      .ok [("df", Value.vDf d), ("output_dir", Value.vStr od), ("use_llm", Value.vBool ul),
       ("groq_api_key", optValue gk), ("model_name", Value.vStr mn),
       ("summary", Value.vSummary (parseFrame d 5)), ("insights", iv)] :=
    node_insight_run iF _ (Value.vDf d) iv rfl hins
  have e4 : node_report_generator rF
      [("df", Value.vDf d), ("output_dir", Value.vStr od), ("use_llm", Value.vBool ul),
       ("groq_api_key", optValue gk), ("model_name", Value.vStr mn),
       ("summary", Value.vSummary (parseFrame d 5)), ("insights", iv),
       ("visuals", Value.vViz (viz_generator_agent render d od true))] =
      .ok [("df", Value.vDf d), ("output_dir", Value.vStr od), ("use_llm", Value.vBool ul),
       ("groq_api_key", optValue gk), ("model_name", Value.vStr mn),
       ("summary", Value.vSummary (parseFrame d 5)), ("insights", iv),
       ("visuals", Value.vViz (viz_generator_agent render d od true)),
       ("report_path", Value.vStr rp)] :=
    node_report_run rF _ (Value.vSummary (parseFrame d 5)) iv
      (Value.vViz (viz_generator_agent render d od true)) od rp rfl rfl rfl rfl hrep
  have s2 := execStages_cons_ok (build_analysis_graph fs render iF rF)
    "insight_generator" ["visualization", "report_generator"]
    [("df", Value.vDf d), ("output_dir", Value.vStr od), ("use_llm", Value.vBool ul),
     ("groq_api_key", optValue gk), ("model_name", Value.vStr mn),
     ("summary", Value.vSummary (parseFrame d 5))]
    (node_insight_generator iF) _
    [("df", Value.vDf d), ("output_dir", Value.vStr od), ("use_llm", Value.vBool ul),
     ("groq_api_key", optValue gk), ("model_name", Value.vStr mn),
     ("summary", Value.vSummary (parseFrame d 5)), ("insights", iv)]
    rfl e2 rfl
  have s3 := execStages_cons_ok (build_analysis_graph fs render iF rF)
    "visualization" ["report_generator"]
    [("df", Value.vDf d), ("output_dir", Value.vStr od), ("use_llm", Value.vBool ul),
     ("groq_api_key", optValue gk), ("model_name", Value.vStr mn),
     ("summary", Value.vSummary (parseFrame d 5)), ("insights", iv)]
    (node_visualization render) _
    [("df", Value.vDf d), ("output_dir", Value.vStr od), ("use_llm", Value.vBool ul),
     ("groq_api_key", optValue gk), ("model_name", Value.vStr mn),
     ("summary", Value.vSummary (parseFrame d 5)), ("insights", iv),
     ("visuals", Value.vViz (viz_generator_agent render d od true))]
    rfl
    (show node_visualization render _ =
      .ok [("df", Value.vDf d), ("output_dir", Value.vStr od), ("use_llm", Value.vBool ul),
       ("groq_api_key", optValue gk), ("model_name", Value.vStr mn),
       ("summary", Value.vSummary (parseFrame d 5)), ("insights", iv),
       ("visuals", Value.vViz (viz_generator_agent render d od true))] from rfl)
    rfl
  have s4 := execStages_cons_ok (build_analysis_graph fs render iF rF)
    "report_generator" []
    [("df", Value.vDf d), ("output_dir", Value.vStr od), ("use_llm", Value.vBool ul),
     ("groq_api_key", optValue gk), ("model_name", Value.vStr mn),
     ("summary", Value.vSummary (parseFrame d 5)), ("insights", iv),
     ("visuals", Value.vViz (viz_generator_agent render d od true))]
    (node_report_generator rF) _
    [("df", Value.vDf d), ("output_dir", Value.vStr od), ("use_llm", Value.vBool ul),
     ("groq_api_key", optValue gk), ("model_name", Value.vStr mn),
     ("summary", Value.vSummary (parseFrame d 5)), ("insights", iv),
     ("visuals", Value.vViz (viz_generator_agent render d od true)),
     ("report_path", Value.vStr rp)]
    rfl e4 rfl
  exact
    (show run_langgraph_pipeline fs render iF rF (.vDf d) od ul mn gk =
        Except.ok (execStages (build_analysis_graph fs render iF rF)
          ["insight_generator", "visualization", "report_generator"]
          [("df", Value.vDf d), ("output_dir", Value.vStr od), ("use_llm", Value.vBool ul),
           ("groq_api_key", optValue gk), ("model_name", Value.vStr mn),
           ("summary", Value.vSummary (parseFrame d 5))]) from rfl).trans
      (congrArg Except.ok ((s2.trans (s3.trans s4)).trans rfl))

theorem viz_empty_of_no_numeric (render : RenderReq → String) (df : DataFrame)
    (dir : String) (si : Bool) (h : numericCols df = []) :
    viz_generator_agent render df dir si =
      VizResult.mk "No numeric columns found." [] := by
  simp [viz_generator_agent, h]

theorem viz_nonempty_of_numeric (render : RenderReq → String) (df : DataFrame)
    (dir : String) (si : Bool) (h : numericCols df ≠ []) :
    (viz_generator_agent render df dir si).visualizations ≠ [] := by
  unfold viz_generator_agent
  rw [if_neg (by simpa [List.length_eq_zero] using h)]
  simp

theorem cols_ne_nil_of_numeric (df : DataFrame) (h : numericCols df ≠ []) :
    df.cols ≠ [] := by
  intro hc
  exact h (by simp [numericCols, hc])

/-- C1: a pipeline run on a frame-valued dataset in which all four stages
succeed terminates completed; the final context holds the initial fields plus
non-empty summary, insights, visuals and report_path, appended in that
construction order, with each stage's output visible under its own field. -/
theorem C1_successful_run_final_context (fs : String → Option DataFrame)
    (render : RenderReq → String)
    (iF : Value → Value → Value → Value → Except StageErr Value)
    (rF : Value → Value → Value → String → Except StageErr String)
    (d : DataFrame) (od : String) (ul : Bool) (mn : String) (gk : Option String)
    (iv : Value) (rp : String)
    (hnum : numericCols d ≠ [])
    (hiv : iv ≠ .vNone ∧ iv ≠ .vStr "")
    (hrp : rp ≠ "")
    (hins : iF (.vDf d) (.vBool ul) (optValue gk) (.vStr mn) = .ok iv)
    (hrep : rF (.vSummary (parseFrame d 5)) iv
      (.vViz (viz_generator_agent render d od true))
      (pathJoin od "data_analysis_report.pdf") = .ok rp) :
    run_langgraph_pipeline fs render iF rF (.vDf d) od ul mn gk =
      .ok (.completed
        [("df", .vDf d), ("output_dir", .vStr od), ("use_llm", .vBool ul),
         ("groq_api_key", optValue gk), ("model_name", .vStr mn),
         ("summary", .vSummary (parseFrame d 5)), ("insights", iv),
         ("visuals", .vViz (viz_generator_agent render d od true)),
         ("report_path", .vStr rp)]) ∧
    ctxKeys
        [("df", .vDf d), ("output_dir", .vStr od), ("use_llm", .vBool ul),
         ("groq_api_key", optValue gk), ("model_name", .vStr mn),
         ("summary", .vSummary (parseFrame d 5)), ("insights", iv),
         ("visuals", .vViz (viz_generator_agent render d od true)),
         ("report_path", .vStr rp)] =
      ["df", "output_dir", "use_llm", "groq_api_key", "model_name",
       "summary", "insights", "visuals", "report_path"] ∧
    (parseFrame d 5).columns ≠ [] ∧
    iv ≠ .vNone ∧ iv ≠ .vStr "" ∧
    (viz_generator_agent render d od true).visualizations ≠ [] ∧
    rp ≠ "" := by
  refine ⟨pipeline_run_eq fs render iF rF d od ul mn gk iv rp hins hrep,
    rfl, ?_, hiv.1, hiv.2, viz_nonempty_of_numeric render d od true hnum, hrp⟩
  have hc := cols_ne_nil_of_numeric d hnum
  simpa [parseFrame, cleanFrame] using hc

/-- Witness for C1: the concrete 10-row, 3-numeric-column frame run with
deterministic stub collaborators completes with the expected final context. -/
theorem C1_witness :
    run_langgraph_pipeline fsEmpty stubRender stubInsight stubReport
      (.vDf exDf) "output" true "llama-3.1-8b-instant" none =
      .ok (.completed
        [("df", .vDf exDf), ("output_dir", .vStr "output"), ("use_llm", .vBool true),
         ("groq_api_key", optValue none), ("model_name", .vStr "llama-3.1-8b-instant"),
         ("summary", .vSummary (parseFrame exDf 5)), ("insights", .vStr "three insights"),
         ("visuals", .vViz (viz_generator_agent stubRender exDf "output" true)),
         ("report_path", .vStr "output/data_analysis_report.pdf")]) :=
  (C1_successful_run_final_context fsEmpty stubRender stubInsight stubReport
    exDf "output" true "llama-3.1-8b-instant" none
    (.vStr "three insights") "output/data_analysis_report.pdf"
    (by decide) ⟨by decide, by decide⟩ (by decide) rfl rfl).1

/-- C2: when the dataset reference is a path the file system does not contain,
data_parser_agent raises file-not-found, the run halts failed at the
data_parser stage with the context still equal to the initial state (no prior
stage updates), and insights, visuals and report_path are absent. -/
theorem C2_parser_failure_halts (fs : String → Option DataFrame)
    (render : RenderReq → String)
    (iF : Value → Value → Value → Value → Except StageErr Value)
    (rF : Value → Value → Value → String → Except StageErr String)
    (p od : String) (ul : Bool) (mn : String) (gk : Option String)
    (hfs : fs p = none) :
    run_langgraph_pipeline fs render iF rF (.vStr p) od ul mn gk =
      .ok (.failed "data_parser" (.fileNotFound p) (initState (.vStr p) od ul gk mn)) ∧
    ctxGet (initState (.vStr p) od ul gk mn) "summary" = none ∧
    ctxGet (initState (.vStr p) od ul gk mn) "insights" = none ∧
    ctxGet (initState (.vStr p) od ul gk mn) "visuals" = none ∧
    ctxGet (initState (.vStr p) od ul gk mn) "report_path" = none := by
  refine ⟨?_, rfl, rfl, rfl, rfl⟩
  have e1 := node_parser_fail fs (initState (.vStr p) od ul gk mn) p rfl hfs
  have s1 := execStages_cons_err (build_analysis_graph fs render iF rF) "data_parser"
    ["insight_generator", "visualization", "report_generator"]
    (initState (.vStr p) od ul gk mn) (nodeDataParser fs) (.fileNotFound p) rfl e1
  exact
    (show run_langgraph_pipeline fs render iF rF (.vStr p) od ul mn gk =
        Except.ok (execStages (build_analysis_graph fs render iF rF)
          ["data_parser", "insight_generator", "visualization", "report_generator"]
          (initState (.vStr p) od ul gk mn)) from rfl).trans
      (congrArg Except.ok s1)

/-- Witness for C2: a run whose dataset reference is the missing path
missing.csv fails at the parsing stage with the untouched initial state. -/
theorem C2_witness :
    run_langgraph_pipeline fsEmpty stubRender stubInsight stubReport
      (.vStr "missing.csv") "output" true "llama-3.1-8b-instant" none =
      .ok (.failed "data_parser" (.fileNotFound "missing.csv")
        (initState (.vStr "missing.csv") "output" true none "llama-3.1-8b-instant")) :=
  (C2_parser_failure_halts fsEmpty stubRender stubInsight stubReport
    "missing.csv" "output" true "llama-3.1-8b-instant" none rfl).1

/-- C3: on a dataset with zero numeric columns the visualization agent returns
the explicit empty-result marker instead of failing, and a pipeline run on such
a frame still proceeds through the report stage and completes. -/
theorem C3_no_numeric_columns_marker :
    (∀ (render : RenderReq → String) (df : DataFrame) (dir : String) (si : Bool),
      numericCols df = [] →
      viz_generator_agent render df dir si =
        VizResult.mk "No numeric columns found." []) ∧
    (∀ (fs : String → Option DataFrame) (render : RenderReq → String)
      (iF : Value → Value → Value → Value → Except StageErr Value)
      (rF : Value → Value → Value → String → Except StageErr String)
      (d : DataFrame) (od : String) (ul : Bool) (mn : String) (gk : Option String)
      (iv : Value) (rp : String),
      numericCols d = [] →
      iF (.vDf d) (.vBool ul) (optValue gk) (.vStr mn) = .ok iv →
      rF (.vSummary (parseFrame d 5)) iv
        (.vViz (VizResult.mk "No numeric columns found." []))
        (pathJoin od "data_analysis_report.pdf") = .ok rp →
      run_langgraph_pipeline fs render iF rF (.vDf d) od ul mn gk =
        .ok (.completed
          [("df", .vDf d), ("output_dir", .vStr od), ("use_llm", .vBool ul),
           ("groq_api_key", optValue gk), ("model_name", .vStr mn),
           ("summary", .vSummary (parseFrame d 5)), ("insights", iv),
           ("visuals", .vViz (VizResult.mk "No numeric columns found." [])),
           ("report_path", .vStr rp)])) := by
  refine ⟨fun render df dir si h => by simp [viz_generator_agent, h], ?_⟩
  intro fs render iF rF d od ul mn gk iv rp hn hins hrep
  have hviz : viz_generator_agent render d od true =
      VizResult.mk "No numeric columns found." [] := by
    simp [viz_generator_agent, hn]
  have hrun := pipeline_run_eq fs render iF rF d od ul mn gk iv rp hins
    (by rw [hviz]; exact hrep)
  rw [hviz] at hrun
  exact hrun

/-- Witness for C3: a 2-row frame with one object column and no numeric
columns yields the empty marker and still completes through the report
stage with stub collaborators. -/
theorem C3_witness :
    viz_generator_agent stubRender exDfNoNum "output" true =
      VizResult.mk "No numeric columns found." [] ∧
    run_langgraph_pipeline fsEmpty stubRender stubInsight stubReport
      (.vDf exDfNoNum) "output" true "llama-3.1-8b-instant" none =
      .ok (.completed
        [("df", .vDf exDfNoNum), ("output_dir", .vStr "output"), ("use_llm", .vBool true),
         ("groq_api_key", optValue none), ("model_name", .vStr "llama-3.1-8b-instant"),
         ("summary", .vSummary (parseFrame exDfNoNum 5)),
         ("insights", .vStr "three insights"),
         ("visuals", .vViz (VizResult.mk "No numeric columns found." [])),
         ("report_path", .vStr "output/data_analysis_report.pdf")]) :=
  ⟨C3_no_numeric_columns_marker.1 stubRender exDfNoNum "output" true rfl,
   C3_no_numeric_columns_marker.2 fsEmpty stubRender stubInsight stubReport
     exDfNoNum "output" true "llama-3.1-8b-instant" none
     (.vStr "three insights") "output/data_analysis_report.pdf" rfl rfl rfl⟩

/-- C4: for the repository's builder configuration, compilation succeeds and
the compiled plan's stage order equals the edge-chain order data_parser,
insight_generator, visualization, report_generator. -/
theorem C4_compile_order (fs : String → Option DataFrame)
    (render : RenderReq → String)
    (iF : Value → Value → Value → Value → Except StageErr Value)
    (rF : Value → Value → Value → String → Except StageErr String) :
    (build_analysis_graph fs render iF rF).compile =
      .ok ["data_parser", "insight_generator", "visualization", "report_generator"] :=
  rfl

/-- C5: on an accepted in-memory frame, data_parser_agent returns the
structured summary record with row count, column count, per-column names,
dtypes, missing counts and percentages, descriptive statistics, and at most
sample_n sample rows; a missing path or a non-frame non-path argument fails
with an error instead. -/
theorem C5_parser_summary_contract :
    (∀ (fs : String → Option DataFrame) (df : DataFrame) (n : Nat),
      data_parser_agent fs (.frame df) n = .ok (parseFrame df n) ∧
      (parseFrame df n).num_rows = df.nrows ∧
      (parseFrame df n).num_columns = df.cols.length ∧
      (parseFrame df n).columns = df.cols.map Col.name ∧
      (parseFrame df n).dtypes = dtypesOf (cleanFrame df) ∧
      (parseFrame df n).missing_counts = missingCounts (cleanFrame df) ∧
      (parseFrame df n).missing_percentage =
        missingPercentage df.nrows (missingCounts (cleanFrame df)) ∧
      (parseFrame df n).summary_stats = safeDescribe (cleanFrame df) ∧
      (parseFrame df n).sample_rows.length = min n df.nrows ∧
      (parseFrame df n).sample_rows.length ≤ n) ∧
    (∀ (fs : String → Option DataFrame) (p : String) (n : Nat), fs p = none →
      data_parser_agent fs (.path p) n = .error (.fileNotFound p)) ∧
    (∀ (fs : String → Option DataFrame) (n : Nat),
      data_parser_agent fs .other n =
        .error (.valueError "df_or_path must be path or pandas.DataFrame")) := by
  refine ⟨fun fs df n => ⟨rfl, rfl, ?_, cleanFrame_colNames df, rfl, rfl, rfl, rfl, ?_, ?_⟩,
    fun fs p n h => by simp [data_parser_agent, h], fun fs n => rfl⟩
  · exact cleanFrame_numCols df
  · simp [parseFrame, sampleRows, cleanFrame]
  · simp only [parseFrame, sampleRows, cleanFrame, List.length_map, List.length_range]
    exact min_le_left n df.nrows

/-- Witness for C5: the parser accepts the concrete test frame, rejects a
missing path with file-not-found, and rejects a non-path non-frame argument. -/
theorem C5_witness :
    data_parser_agent fsEmpty (.frame exDf) 5 = .ok (parseFrame exDf 5) ∧
    data_parser_agent fsEmpty (.path "missing.csv") 5 =
      .error (.fileNotFound "missing.csv") ∧
    data_parser_agent fsEmpty .other 5 =
      .error (.valueError "df_or_path must be path or pandas.DataFrame") ∧
    (parseFrame exDf 5).sample_rows.length ≤ 5 :=
  ⟨(C5_parser_summary_contract.1 fsEmpty exDf 5).1,
   C5_parser_summary_contract.2.1 fsEmpty "missing.csv" 5 rfl,
   C5_parser_summary_contract.2.2 fsEmpty 5,
   (C5_parser_summary_contract.1 fsEmpty exDf 5).2.2.2.2.2.2.2.2.2⟩

/-- C6: every stage of the pipeline preserves all context fields it does not
write: on success each node only adds or overwrites its own output field, and
any other field keeps exactly its prior value. -/
theorem C6_stages_preserve_fields :
    (∀ (fs : String → Option DataFrame) (ctx ctx2 : Ctx) (k : String),
      nodeDataParser fs ctx = .ok ctx2 → k ≠ "summary" →
      ctxGet ctx2 k = ctxGet ctx k) ∧
    (∀ (iF : Value → Value → Value → Value → Except StageErr Value)
      (ctx ctx2 : Ctx) (k : String),
      node_insight_generator iF ctx = .ok ctx2 → k ≠ "insights" →
      ctxGet ctx2 k = ctxGet ctx k) ∧
    (∀ (render : RenderReq → String) (ctx ctx2 : Ctx) (k : String),
      node_visualization render ctx = .ok ctx2 → k ≠ "visuals" →
      ctxGet ctx2 k = ctxGet ctx k) ∧
    (∀ (rF : Value → Value → Value → String → Except StageErr String)
      (ctx ctx2 : Ctx) (k : String),
      node_report_generator rF ctx = .ok ctx2 → k ≠ "report_path" →
      ctxGet ctx2 k = ctxGet ctx k) := by
  refine ⟨?_, ?_, ?_, ?_⟩
  · intro fs ctx ctx2 k hp hk
    unfold nodeDataParser at hp
    cases hdf : ctxGet ctx "df" with
    | none => simp [hdf] at hp
    | some v =>
      simp only [hdf] at hp
      cases hpar : data_parser_agent fs (valueToDfOrPath v) 5 with
      | error e => simp [hpar] at hp
      | ok s =>
        simp only [hpar, Except.ok.injEq] at hp
        rw [← hp]
        exact ctxGet_set_ne ctx "summary" k _ hk
  · intro iF ctx ctx2 k hp hk
    unfold node_insight_generator at hp
    cases hdf : ctxGet ctx "df" with
    | none => simp [hdf] at hp
    | some v =>
      simp only [hdf] at hp
      cases hins : iF v (ctxGetD ctx "use_llm" (.vBool true))
          (ctxGetD ctx "groq_api_key" .vNone)
          (ctxGetD ctx "model_name" (.vStr "llama-3.1-8b-instant")) with
      | error e => simp [hins] at hp
      | ok ins =>
        simp only [hins, Except.ok.injEq] at hp
        rw [← hp]
        exact ctxGet_set_ne ctx "insights" k _ hk
  · intro render ctx ctx2 k hp hk
    unfold node_visualization at hp
    cases hdf : ctxGet ctx "df" with
    | none => simp [hdf] at hp
    | some v =>
      simp only [hdf] at hp
      cases v with
      | vDf d =>
        cases hod : ctxGetD ctx "output_dir" (.vStr "output/visuals") with
        | vStr dir =>
          simp only [hod, Except.ok.injEq] at hp
          rw [← hp]
          exact ctxGet_set_ne ctx "visuals" k _ hk
        | vNone => simp [hod] at hp
        | vBool b => simp [hod] at hp
        | vDf d2 => simp [hod] at hp
        | vSummary s => simp [hod] at hp
        | vViz vz => simp [hod] at hp
      | vNone => simp at hp
      | vStr s => simp at hp
      | vBool b => simp at hp
      | vSummary s => simp at hp
      | vViz vz => simp at hp
  · intro rF ctx ctx2 k hp hk
    unfold node_report_generator at hp
    cases hs : ctxGet ctx "summary" with
    | none => simp [hs] at hp
    | some sv =>
      simp only [hs] at hp
      cases hi : ctxGet ctx "insights" with
      | none => simp [hi] at hp
      | some iv =>
        simp only [hi] at hp
        cases hv : ctxGet ctx "visuals" with
        | none => simp [hv] at hp
        | some vv =>
          simp only [hv] at hp
          cases hod : ctxGetD ctx "output_dir" (.vStr "output") with
          | vStr dir =>
            simp only [hod] at hp
            cases hr : rF sv iv vv (pathJoin dir "data_analysis_report.pdf") with
            | error e => simp [hr] at hp
            | ok rp =>
              simp only [hr, Except.ok.injEq] at hp
              rw [← hp]
              exact ctxGet_set_ne ctx "report_path" k _ hk
          | vNone => simp [hod] at hp
          | vBool b => simp [hod] at hp
          | vDf d2 => simp [hod] at hp
          | vSummary s2 => simp [hod] at hp
          | vViz vz => simp [hod] at hp

/-- Witness for C6: the parser stage on a one-field context leaves the df
field untouched while writing summary. -/
theorem C6_witness :
    ctxGet (ctxSet [("df", Value.vDf exDf)] "summary"
      (.vSummary (parseFrame exDf 5))) "df" =
    ctxGet [("df", Value.vDf exDf)] "df" :=
  C6_stages_preserve_fields.1 fsEmpty [("df", Value.vDf exDf)]
    (ctxSet [("df", Value.vDf exDf)] "summary" (.vSummary (parseFrame exDf 5)))
    "df" rfl (by decide)

/-- C7: every pipeline run yields either a completed context or a single
failure attributed to one stage of the plan; and whenever a stage's
collaborator raises a failure during execution, the surfaced error is tagged
with that stage's name together with the original cause, and the run halts
with the pre-failure context. -/
theorem C7_failures_attributed :
    (∀ (fs : String → Option DataFrame) (render : RenderReq → String)
      (iF : Value → Value → Value → Value → Except StageErr Value)
      (rF : Value → Value → Value → String → Except StageErr String)
      (df : Value) (od : String) (ul : Bool) (mn : String) (gk : Option String),
      (∃ c, run_langgraph_pipeline fs render iF rF df od ul mn gk =
        .ok (.completed c)) ∨
      (∃ n e c, run_langgraph_pipeline fs render iF rF df od ul mn gk =
          .ok (.failed n e c) ∧
        n ∈ ["data_parser", "insight_generator", "visualization",
          "report_generator"])) ∧
    (∀ (b : GraphBuilder) (n : String) (rest : List String) (ctx : Ctx)
      (f : StageFn) (e : StageErr),
      stageFnOf b n = some f → f ctx = .error e →
      execStages b (n :: rest) ctx = .failed n e ctx) := by
  constructor
  · intro fs render iF rF df od ul mn gk
    have h0 : run_langgraph_pipeline fs render iF rF df od ul mn gk =
        .ok (execStages (build_analysis_graph fs render iF rF)
          ["data_parser", "insight_generator", "visualization", "report_generator"]
          (initState df od ul gk mn)) := rfl
    rcases execStages_dichotomy (build_analysis_graph fs render iF rF)
      ["data_parser", "insight_generator", "visualization", "report_generator"]
      (initState df od ul gk mn) with ⟨c, hc⟩ | ⟨n, e, c, h1, h2⟩
    · exact .inl ⟨c, by rw [h0, hc]⟩
    · exact .inr ⟨n, e, c, by rw [h0, h1], h2⟩
  · intro b n rest ctx f e hf hr
    exact execStages_cons_err b n rest ctx f e hf hr

/-- Witness for C7: a parser failure on a one-stage plan surfaces as a
failure tagged with the data_parser stage name and the file-not-found cause. -/
theorem C7_witness :
    execStages (build_analysis_graph fsEmpty stubRender stubInsight stubReport)
      ["data_parser"] [("df", Value.vStr "missing.csv")] =
      .failed "data_parser" (.fileNotFound "missing.csv")
        [("df", Value.vStr "missing.csv")] :=
  C7_failures_attributed.2
    (build_analysis_graph fsEmpty stubRender stubInsight stubReport)
    "data_parser" [] [("df", Value.vStr "missing.csv")]
    (nodeDataParser fsEmpty) (.fileNotFound "missing.csv") rfl rfl

/-- C8: re-running the pipeline or the parser on identical initial data
yields identical results; every stage of the embedding is a pure function of
the context, so runs with equal inputs are equal in all fields. -/
theorem C8_rerun_deterministic :
    (∀ (fs : String → Option DataFrame) (render : RenderReq → String)
      (iF : Value → Value → Value → Value → Except StageErr Value)
      (rF : Value → Value → Value → String → Except StageErr String)
      (df1 df2 : Value) (od : String) (ul : Bool) (mn : String)
      (gk : Option String), df1 = df2 →
      run_langgraph_pipeline fs render iF rF df1 od ul mn gk =
        run_langgraph_pipeline fs render iF rF df2 od ul mn gk) ∧
    (∀ (fs : String → Option DataFrame) (d1 d2 : DataFrame) (n : Nat), d1 = d2 →
      data_parser_agent fs (.frame d1) n = data_parser_agent fs (.frame d2) n ∧
      parseFrame d1 n = parseFrame d2 n) := by
  constructor
  · intro fs render iF rF df1 df2 od ul mn gk h
    rw [h]
  · intro fs d1 d2 n h
    rw [h]
    exact ⟨rfl, rfl⟩

/-- Witness for C8: two runs and two parser calls on the same concrete frame
agree. -/
theorem C8_witness :
    run_langgraph_pipeline fsEmpty stubRender stubInsight stubReport
        (.vDf exDf) "output" true "llama-3.1-8b-instant" none =
      run_langgraph_pipeline fsEmpty stubRender stubInsight stubReport
        (.vDf exDf) "output" true "llama-3.1-8b-instant" none ∧
    data_parser_agent fsEmpty (.frame exDf) 5 =
      data_parser_agent fsEmpty (.frame exDf) 5 :=
  ⟨C8_rerun_deterministic.1 fsEmpty stubRender stubInsight stubReport
      (.vDf exDf) (.vDf exDf) "output" true "llama-3.1-8b-instant" none rfl,
   (C8_rerun_deterministic.2 fsEmpty exDf exDf 5 rfl).1⟩

/-- C9: on a dataset with zero rows the parser reports every column's
missing-value percentage as 0 (the computation is guarded by the
num_rows strictly positive test) instead of dividing by zero. -/
theorem C9_zero_rows_percentages (fs : String → Option DataFrame)
    (df : DataFrame) (n : Nat) (s : Summary)
    (h0 : df.nrows = 0)
    (hp : data_parser_agent fs (.frame df) n = .ok s) :
    s.missing_percentage.map Prod.snd = List.replicate s.num_columns (0 : Rat) := by
  have hs : parseFrame df n = s := by
    simpa [data_parser_agent] using hp
  subst hs
  simp [parseFrame, missingPercentage, missingCounts, cleanFrame, h0,
    List.map_map, Function.comp]
  generalize df.cols = cs
  induction cs with
  | nil => simp
  | cons c cs ih => simp [Function.comp, ih, List.replicate_succ]

/-- Witness for C9: the 0-row one-column frame reports a single percentage
of 0. -/
theorem C9_witness :
    exDfEmpty.nrows = 0 ∧
    (parseFrame exDfEmpty 5).missing_percentage.map Prod.snd =
      List.replicate (parseFrame exDfEmpty 5).num_columns (0 : Rat) :=
  ⟨rfl, C9_zero_rows_percentages fsEmpty exDfEmpty 5 (parseFrame exDfEmpty 5) rfl rfl⟩

/-- C10: data_parser_agent never mutates the caller's in-memory frame: the
cleaning pass operates on the copy taken at line 182, so the caller-visible
frame after the call is exactly the input, while an aliasing implementation
would have exposed the cleaned frame. -/
theorem C10_caller_frame_unchanged (df : DataFrame) :
    data_parser_agent_callerFrame df = df ∧
    parserCallerFrame df true = cleanFrame df :=
  ⟨rfl, rfl⟩
